import Mathlib

set_option autoImplicit false

namespace WebRTCStreaming

/-! Shallow embedding of the webrtc-streaming-template repository.

The server model follows src/server.js; the hook models follow
src/src/hooks/useWebRTC.ts; the page models follow
src/src/app/streamer/page.tsx and src/src/app/viewer/[roomId]/page.tsx.
JavaScript Map and Set values are embedded as association lists and
lists that preserve insertion order; Map keys and Set elements are
unique, which appears as Nodup hypotheses where needed. -/

/-- RTCPeerConnectionState values. -/
inductive ConnState
  | new
  | connecting
  | connected
  | disconnected
  | failed
  | closed
  deriving DecidableEq

/-- RTCSignalingState values used by the code (rollback states are never produced). -/
inductive SignalingState
  | stable
  | haveLocalOffer
  | haveRemoteOffer
  deriving DecidableEq

/-- Association-list read, mirroring JavaScript Map.get. -/
def alookup {α : Type} (k : String) : List (String × α) → Option α
  | [] => none
  | (k2, v) :: rest => if k2 = k then some v else alookup k rest

/-- Association-list write, mirroring JavaScript Map.set: replace in place, else append. -/
def aset {α : Type} (k : String) (v : α) : List (String × α) → List (String × α)
  | [] => [(k, v)]
  | (k2, v2) :: rest => if k2 = k then (k2, v) :: rest else (k2, v2) :: aset k v rest

/-- Association-list delete, mirroring JavaScript Map.delete. -/
def aerase {α : Type} (k : String) : List (String × α) → List (String × α)
  | [] => []
  | (k2, v) :: rest => if k2 = k then rest else (k2, v) :: aerase k rest

/-- Keys of an association list, in order. -/
def akeys {α : Type} (l : List (String × α)) : List String :=
  l.map Prod.fst

/-! ## Session Registry (server.js) -/

/-- A room entry: streamer socket id plus the set of viewer socket ids (server.js line 56). -/
structure Room where
  streamer : String
  viewers : List String
  deriving DecidableEq

/-- Response delivered through the join-room callback. -/
inductive JoinResponse
  | success
  | rerror (msg : String)
  deriving DecidableEq

/-- Messages the server emits while handling join-room and disconnect. -/
inductive SrvAction
  | viewerJoined (target : String) (viewerId : String)
  | viewerLeft (target : String) (viewerId : String)
  | streamerLeft (roomId : String) (viewerId : String)
  | roomDeleted (roomId : String)
  deriving DecidableEq

/-- The join-room handler (server.js lines 67 to 89).  Returns the callback
response, the updated room table and the emitted events. -/
def joinRoom (sockId roomId : String) (rooms : List (String × Room)) :
    JoinResponse × List (String × Room) × List SrvAction :=
  match alookup roomId rooms with
  | none => (.rerror "Room does not exist", rooms, [])
  | some room =>
    if sockId ∈ room.viewers then
      (.success, rooms, [])
    else
      (.success,
       aset roomId { room with viewers := room.viewers ++ [sockId] } rooms,
       [.viewerJoined room.streamer sockId])

/-- The disconnect handler (server.js lines 128 to 144): iterate over all rooms;
a room whose streamer is the leaving socket broadcasts streamer-left to its
viewers and is deleted; a room containing the socket as viewer drops it and
notifies the streamer. -/
def handleDisconnect (sockId : String) : List (String × Room) → List SrvAction × List (String × Room)
  | [] => ([], [])
  | (rid, room) :: rest =>
    let step := handleDisconnect sockId rest
    if room.streamer = sockId then
      (room.viewers.map (SrvAction.streamerLeft rid) ++ SrvAction.roomDeleted rid :: step.1,
       step.2)
    else if sockId ∈ room.viewers then
      (SrvAction.viewerLeft room.streamer sockId :: step.1,
       (rid, { room with viewers := room.viewers.erase sockId }) :: step.2)
    else
      (step.1, (rid, room) :: step.2)

/-! Association-list facts used by the registry proofs. -/

theorem alookup_aset_self {α : Type} (k : String) (v : α) (l : List (String × α)) :
    alookup k (aset k v l) = some v := by
  induction l with
  | nil => simp [aset, alookup]
  | cons p rest ih =>
    obtain ⟨k2, v2⟩ := p
    by_cases h : k2 = k
    · simp [aset, alookup, h]
    · simp [aset, alookup, h, ih]

/-! ## Claim C4 -/

/-- Claim C4: joinRoom on an absent room returns the Room-does-not-exist error
and leaves the table unchanged; joining an existing room twice with the same
viewer succeeds both times and leaves exactly one occurrence of that viewer in
the viewer set. -/
theorem joinRoom_absent_and_idempotent
    (sockId roomId : String) (rooms : List (String × Room)) :
    (alookup roomId rooms = none →
      joinRoom sockId roomId rooms = (.rerror "Room does not exist", rooms, [])) ∧
    (∀ room : Room, alookup roomId rooms = some room → room.viewers.Nodup →
      (joinRoom sockId roomId rooms).1 = .success ∧
      (joinRoom sockId roomId (joinRoom sockId roomId rooms).2.1).1 = .success ∧
      ∃ room2 : Room,
        alookup roomId (joinRoom sockId roomId (joinRoom sockId roomId rooms).2.1).2.1
          = some room2 ∧
        room2.viewers.count sockId = 1) := by
  constructor
  · intro h
    simp [joinRoom, h]
  · intro room hl hnd
    by_cases hmem : sockId ∈ room.viewers
    · refine ⟨?_, ?_, room, ?_, ?_⟩
      · simp [joinRoom, hl, hmem]
      · simp [joinRoom, hl, hmem]
      · simp [joinRoom, hl, hmem]
      · exact List.count_eq_one_of_mem hnd hmem
    · have h1 : joinRoom sockId roomId rooms =
          (.success,
           aset roomId { room with viewers := room.viewers ++ [sockId] } rooms,
           [.viewerJoined room.streamer sockId]) := by
        simp [joinRoom, hl, hmem]
      have hl2 : alookup roomId
            (aset roomId { room with viewers := room.viewers ++ [sockId] } rooms)
          = some { room with viewers := room.viewers ++ [sockId] } :=
        alookup_aset_self roomId _ rooms
      have hmem2 : sockId ∈ room.viewers ++ [sockId] := by
        simp
      refine ⟨?_, ?_, { room with viewers := room.viewers ++ [sockId] }, ?_, ?_⟩
      · simp [h1]
      · rw [h1]
        simp [joinRoom, hl2, hmem2]
      · rw [h1]
        simp [joinRoom, hl2, hmem2]
      · simp [List.count_append, List.count_eq_zero_of_not_mem hmem]

/-- Witness for Claim C4 at a concrete table. -/
theorem joinRoom_absent_and_idempotent_witness :
    (alookup "r2" [("r1", Room.mk "s1" ["v1"])] = none →
      joinRoom "v1" "r2" [("r1", Room.mk "s1" ["v1"])]
        = (.rerror "Room does not exist", [("r1", Room.mk "s1" ["v1"])], [])) ∧
    (∀ room : Room, alookup "r2" [("r1", Room.mk "s1" ["v1"])] = some room →
      room.viewers.Nodup →
      (joinRoom "v1" "r2" [("r1", Room.mk "s1" ["v1"])]).1 = .success ∧
      (joinRoom "v1" "r2" (joinRoom "v1" "r2" [("r1", Room.mk "s1" ["v1"])]).2.1).1
        = .success ∧
      ∃ room2 : Room,
        alookup "r2"
            (joinRoom "v1" "r2"
              (joinRoom "v1" "r2" [("r1", Room.mk "s1" ["v1"])]).2.1).2.1
          = some room2 ∧
        room2.viewers.count "v1" = 1) :=
  joinRoom_absent_and_idempotent "v1" "r2" [("r1", Room.mk "s1" ["v1"])]

/-! ## Claim C9 -/

/-- Claim C9: a repeated join-room request from a viewer already in the room
succeeds through the callback and has no other effect: the room table is
unchanged and no viewer-joined event is emitted to the streamer. -/
theorem joinRoom_duplicate_noop
    (sockId roomId : String) (rooms : List (String × Room)) (room : Room)
    (hl : alookup roomId rooms = some room) (hmem : sockId ∈ room.viewers) :
    joinRoom sockId roomId rooms = (.success, rooms, []) := by
  simp [joinRoom, hl, hmem]

/-- Witness for Claim C9 at a concrete table. -/
theorem joinRoom_duplicate_noop_witness :
    joinRoom "v1" "r1" [("r1", Room.mk "s1" ["v1", "v2"])]
      = (.success, [("r1", Room.mk "s1" ["v1", "v2"])], []) :=
  joinRoom_duplicate_noop "v1" "r1" [("r1", Room.mk "s1" ["v1", "v2"])]
    (Room.mk "s1" ["v1", "v2"]) (by decide) (by decide)

/-! ## Claim C7 -/

/-- An action concerning room rid: a streamer-left notification from it or its removal. -/
def mentionsRoom (rid : String) : SrvAction → Bool
  | .streamerLeft r _ => r == rid
  | .roomDeleted r => r == rid
  | _ => false

theorem handleDisconnect_absent (sockId rid : String) (rooms : List (String × Room))
    (h : rid ∉ akeys rooms) :
    (∀ a ∈ (handleDisconnect sockId rooms).1, mentionsRoom rid a = false) ∧
    rid ∉ akeys (handleDisconnect sockId rooms).2 := by
  induction rooms with
  | nil => simp [handleDisconnect, akeys]
  | cons p rest ih =>
    obtain ⟨k, room⟩ := p
    have hk : k ≠ rid := by
      intro hcontra
      exact h (by simp [akeys, hcontra])
    have hrest : rid ∉ akeys rest := by
      intro hcontra
      exact h (by simp [akeys] at hcontra ⊢; exact Or.inr hcontra)
    obtain ⟨ih1, ih2⟩ := ih hrest
    by_cases hstr : room.streamer = sockId
    · constructor
      · intro a ha
        simp [handleDisconnect, hstr] at ha
        rcases ha with ⟨v, _, rfl⟩ | rfl | ha
        · simp [mentionsRoom, hk]
        · simp [mentionsRoom, hk]
        · exact ih1 a ha
      · simpa [handleDisconnect, hstr] using ih2
    · by_cases hv : sockId ∈ room.viewers
      · constructor
        · intro a ha
          simp [handleDisconnect, hstr, hv] at ha
          rcases ha with rfl | ha
          · simp [mentionsRoom]
          · exact ih1 a ha
        · intro hcontra
          simp [handleDisconnect, hstr, hv, akeys] at hcontra
          rcases hcontra with rfl | hcontra
          · exact hk rfl
          · exact ih2 (by simpa [akeys] using hcontra)
      · constructor
        · intro a ha
          simp [handleDisconnect, hstr, hv] at ha
          exact ih1 a ha
        · intro hcontra
          simp [handleDisconnect, hstr, hv, akeys] at hcontra
          rcases hcontra with rfl | hcontra
          · exact hk rfl
          · exact ih2 (by simpa [akeys] using hcontra)

theorem handleDisconnect_streamer_decomp (sockId rid : String) (room : Room)
    (rooms : List (String × Room))
    (hmem : (rid, room) ∈ rooms) (hkeys : (akeys rooms).Nodup)
    (hstr : room.streamer = sockId) :
    ∃ l1 l2,
      (handleDisconnect sockId rooms).1
        = l1 ++ room.viewers.map (SrvAction.streamerLeft rid)
            ++ SrvAction.roomDeleted rid :: l2 ∧
      (∀ a ∈ l1, mentionsRoom rid a = false) ∧
      (∀ a ∈ l2, mentionsRoom rid a = false) ∧
      rid ∉ akeys (handleDisconnect sockId rooms).2 := by
  induction rooms with
  | nil => cases hmem
  | cons p rest ih =>
    obtain ⟨k, r⟩ := p
    have hkeys1 : (k :: akeys rest).Nodup := hkeys
    have hk2 : k ∉ akeys rest := (List.nodup_cons.mp hkeys1).1
    have hkeys2 : (akeys rest).Nodup := (List.nodup_cons.mp hkeys1).2
    rcases List.mem_cons.mp hmem with heq | hmem2
    · injection heq with hk hr
      subst hk
      subst hr
      obtain ⟨habs1, habs2⟩ := handleDisconnect_absent sockId rid rest hk2
      refine ⟨[], (handleDisconnect sockId rest).1, ?_, ?_, ?_, ?_⟩
      · simp [handleDisconnect, hstr]
      · simp
      · exact habs1
      · simpa [handleDisconnect, hstr] using habs2
    · have hridrest : rid ∈ akeys rest := by
        simp [akeys]
        exact ⟨room, hmem2⟩
      have hkrid : k ≠ rid := fun hcontra => hk2 (hcontra ▸ hridrest)
      obtain ⟨l1, l2, hdec, hl1, hl2, hk3⟩ := ih hmem2 hkeys2
      by_cases hstr2 : r.streamer = sockId
      · refine ⟨r.viewers.map (SrvAction.streamerLeft k)
            ++ SrvAction.roomDeleted k :: l1, l2, ?_, ?_, hl2, ?_⟩
        · simp [handleDisconnect, hstr2, hdec]
        · intro a ha
          simp at ha
          rcases ha with ⟨v, _, rfl⟩ | rfl | ha
          · simp [mentionsRoom, hkrid]
          · simp [mentionsRoom, hkrid]
          · exact hl1 a ha
        · simpa [handleDisconnect, hstr2] using hk3
      · by_cases hv : sockId ∈ r.viewers
        · refine ⟨SrvAction.viewerLeft r.streamer sockId :: l1, l2, ?_, ?_, hl2, ?_⟩
          · simp [handleDisconnect, hstr2, hv, hdec]
          · intro a ha
            rcases List.mem_cons.mp ha with rfl | ha
            · simp [mentionsRoom]
            · exact hl1 a ha
          · intro hcontra
            simp [handleDisconnect, hstr2, hv, akeys] at hcontra
            rcases hcontra with rfl | hcontra
            · exact hkrid rfl
            · exact hk3 (by simpa [akeys] using hcontra)
        · refine ⟨l1, l2, ?_, hl1, hl2, ?_⟩
          · simp [handleDisconnect, hstr2, hv, hdec]
          · intro hcontra
            simp [handleDisconnect, hstr2, hv, akeys] at hcontra
            rcases hcontra with rfl | hcontra
            · exact hkrid rfl
            · exact hk3 (by simpa [akeys] using hcontra)

/-- Claim C7: when the streamer of a room disconnects, the room is removed from
the table exactly once, each viewer of that room receives exactly one
streamer-left notification, and all those notifications are dispatched before
the removal of the room. -/
theorem streamer_disconnect_cascade (sockId rid : String) (room : Room)
    (rooms : List (String × Room))
    (hmem : (rid, room) ∈ rooms) (hkeys : (akeys rooms).Nodup)
    (hstr : room.streamer = sockId) (hnd : room.viewers.Nodup) :
    rid ∉ akeys (handleDisconnect sockId rooms).2 ∧
    (handleDisconnect sockId rooms).1.count (SrvAction.roomDeleted rid) = 1 ∧
    (∀ v ∈ room.viewers,
      (handleDisconnect sockId rooms).1.count (SrvAction.streamerLeft rid v) = 1) ∧
    ∃ l1 l2,
      (handleDisconnect sockId rooms).1
        = l1 ++ room.viewers.map (SrvAction.streamerLeft rid)
            ++ SrvAction.roomDeleted rid :: l2 ∧
      (∀ a ∈ l1, mentionsRoom rid a = false) ∧
      (∀ a ∈ l2, mentionsRoom rid a = false) := by
  obtain ⟨l1, l2, hdec, hl1, hl2, hgone⟩ :=
    handleDisconnect_streamer_decomp sockId rid room rooms hmem hkeys hstr
  have hnot1 : SrvAction.roomDeleted rid ∉ l1 := by
    intro hcontra
    have := hl1 _ hcontra
    simp [mentionsRoom] at this
  have hnot2 : SrvAction.roomDeleted rid ∉ l2 := by
    intro hcontra
    have := hl2 _ hcontra
    simp [mentionsRoom] at this
  have hnotm : SrvAction.roomDeleted rid
      ∉ room.viewers.map (SrvAction.streamerLeft rid) := by
    simp
  refine ⟨hgone, ?_, ?_, l1, l2, hdec, hl1, hl2⟩
  · rw [hdec]
    simp [List.count_append, List.count_cons,
      List.count_eq_zero_of_not_mem hnot1, List.count_eq_zero_of_not_mem hnot2,
      List.count_eq_zero_of_not_mem hnotm]
  · intro v hv
    have hs1 : SrvAction.streamerLeft rid v ∉ l1 := by
      intro hcontra
      have := hl1 _ hcontra
      simp [mentionsRoom] at this
    have hs2 : SrvAction.streamerLeft rid v ∉ l2 := by
      intro hcontra
      have := hl2 _ hcontra
      simp [mentionsRoom] at this
    have hinj : Function.Injective (SrvAction.streamerLeft rid) := by
      intro a b hab
      cases hab
      rfl
    rw [hdec]
    simp [List.count_append, List.count_cons,
      List.count_eq_zero_of_not_mem hs1, List.count_eq_zero_of_not_mem hs2,
      List.count_map_of_injective _ _ hinj, List.count_eq_one_of_mem hnd hv]

/-- Witness for Claim C7 at a concrete table. -/
theorem streamer_disconnect_cascade_witness :
    "r1" ∉ akeys (handleDisconnect "s1" [("r1", Room.mk "s1" ["v1", "v2"])]).2 ∧
    (handleDisconnect "s1" [("r1", Room.mk "s1" ["v1", "v2"])]).1.count
      (SrvAction.roomDeleted "r1") = 1 ∧
    (∀ v ∈ ["v1", "v2"],
      (handleDisconnect "s1" [("r1", Room.mk "s1" ["v1", "v2"])]).1.count
        (SrvAction.streamerLeft "r1" v) = 1) ∧
    ∃ l1 l2,
      (handleDisconnect "s1" [("r1", Room.mk "s1" ["v1", "v2"])]).1
        = l1 ++ (["v1", "v2"] : List String).map (SrvAction.streamerLeft "r1")
            ++ SrvAction.roomDeleted "r1" :: l2 ∧
      (∀ a ∈ l1, mentionsRoom "r1" a = false) ∧
      (∀ a ∈ l2, mentionsRoom "r1" a = false) :=
  streamer_disconnect_cascade "s1" "r1" (Room.mk "s1" ["v1", "v2"])
    [("r1", Room.mk "s1" ["v1", "v2"])] (by decide) (by decide) (by decide) (by decide)

/-! ## Streamer-side aggregate connection state (useWebRTC.ts) -/

/-- Aggregate state recomputed inside onconnectionstatechange for the streamer
role (useWebRTC.ts lines 44 to 64): the derived connectionState and
isConnected pair. -/
def streamerAggregateOnChange (conns : List (String × ConnState)) : ConnState × Bool :=
  let allConnections := conns.map Prod.snd
  if allConnections.any (· == .connected) then
    (.connected, true)
  else if allConnections.length > 0 then
    if allConnections.any (· == .connecting) then
      (.connecting, false)
    else
      (.disconnected, false)
  else
    (.new, false)

/-- Streamer aggregate state and connection table for cleanupViewerConnection. -/
structure StreamerAgg where
  peerConnections : List (String × ConnState)
  connectionState : ConnState
  isConnected : Bool
  deriving DecidableEq

/-- cleanupViewerConnection (useWebRTC.ts lines 404 to 429): close and remove one
session, then recompute the aggregate.  Note the recomputation here has no
connecting check: any non-empty remainder without a connected session yields
connecting. -/
def cleanupViewerConnection (viewerId : String) (s : StreamerAgg) : StreamerAgg :=
  match alookup viewerId s.peerConnections with
  | none => s
  | some _ =>
    let conns := aerase viewerId s.peerConnections
    let states := conns.map Prod.snd
    if states.any (· == .connected) then
      ⟨conns, .connected, true⟩
    else if states.length > 0 then
      ⟨conns, .connecting, false⟩
    else
      ⟨conns, .new, false⟩

/-- Modelled from the spec wording of the aggregate algorithm: any connected
gives connected; else a non-empty set with some connecting gives connecting;
else a non-empty set gives disconnected; else new. -/
def specAggregate (states : List ConnState) : ConnState :=
  if states.any (· == .connected) then .connected
  else if states.length > 0 && states.any (· == .connecting) then .connecting
  else if states.length > 0 then .disconnected
  else .new

/-- Modelled from the amended wording for the cleanup path: any connected gives
connected; else a non-empty remainder gives connecting; else new. -/
def amendedCleanupAggregate (states : List ConnState) : ConnState :=
  if states.any (· == .connected) then .connected
  else if states.length > 0 then .connecting
  else .new

/-! ## Claim C1 -/

/-- Counterexample to Claim C1: removing v1 from a table whose remaining session
is disconnected makes cleanupViewerConnection report connecting, while the spec
algorithm over the remaining states reports disconnected. -/
theorem cleanup_aggregate_counterexample :
    (alookup "v1"
      (StreamerAgg.mk [("v1", .connecting), ("v2", .disconnected)]
        .connecting false).peerConnections).isSome = true ∧
    (cleanupViewerConnection "v1"
      (StreamerAgg.mk [("v1", .connecting), ("v2", .disconnected)]
        .connecting false)).peerConnections.map Prod.snd = [.disconnected] ∧
    (cleanupViewerConnection "v1"
      (StreamerAgg.mk [("v1", .connecting), ("v2", .disconnected)]
        .connecting false)).connectionState = .connecting ∧
    specAggregate [.disconnected] = .disconnected ∧
    (cleanupViewerConnection "v1"
      (StreamerAgg.mk [("v1", .connecting), ("v2", .disconnected)]
        .connecting false)).connectionState ≠ specAggregate [.disconnected] := by
  decide

/-- Claim C1 as amended: the aggregate recomputed on a session state change
follows the spec algorithm exactly (with isConnected true exactly for the
connected aggregate); the aggregate recomputed by cleanupViewerConnection over
an existing session removes exactly that session but follows the weaker rule
that any non-empty remainder without a connected session is reported as
connecting, never disconnected. -/
theorem aggregate_amended (conns : List (String × ConnState))
    (viewerId : String) (s : StreamerAgg)
    (hex : (alookup viewerId s.peerConnections).isSome = true) :
    streamerAggregateOnChange conns
      = (specAggregate (conns.map Prod.snd),
         specAggregate (conns.map Prod.snd) == .connected) ∧
    cleanupViewerConnection viewerId s
      = ⟨aerase viewerId s.peerConnections,
         amendedCleanupAggregate ((aerase viewerId s.peerConnections).map Prod.snd),
         amendedCleanupAggregate ((aerase viewerId s.peerConnections).map Prod.snd)
           == .connected⟩ := by
  constructor
  · by_cases h1 : (conns.map Prod.snd).any (· == .connected)
    · simp [streamerAggregateOnChange, specAggregate, h1]
    · by_cases h2 : 0 < conns.length
      · by_cases h3 : (conns.map Prod.snd).any (· == .connecting)
        · simp [streamerAggregateOnChange, specAggregate, List.length_map, h1, h2, h3]
        · simp [streamerAggregateOnChange, specAggregate, List.length_map, h1, h2, h3]
      · simp [streamerAggregateOnChange, specAggregate, List.length_map, h1, h2]
  · obtain ⟨v, hv⟩ := Option.isSome_iff_exists.mp hex
    by_cases h1 : ((aerase viewerId s.peerConnections).map Prod.snd).any (· == .connected)
    · simp [cleanupViewerConnection, hv, amendedCleanupAggregate, List.length_map, h1]
    · by_cases h2 : 0 < (aerase viewerId s.peerConnections).length
      · simp [cleanupViewerConnection, hv, amendedCleanupAggregate, List.length_map,
          h1, h2]
      · simp [cleanupViewerConnection, hv, amendedCleanupAggregate, List.length_map,
          h1, h2]

/-- Witness for the amended Claim C1 at a concrete table. -/
theorem aggregate_amended_witness :
    streamerAggregateOnChange [("v1", .connecting), ("v2", .connected)]
      = (specAggregate ([("v1", ConnState.connecting), ("v2", ConnState.connected)].map
           Prod.snd),
         specAggregate ([("v1", ConnState.connecting), ("v2", ConnState.connected)].map
           Prod.snd) == .connected) ∧
    cleanupViewerConnection "v1"
        (StreamerAgg.mk [("v1", .connecting), ("v2", .disconnected)] .connecting false)
      = ⟨aerase "v1" [("v1", .connecting), ("v2", .disconnected)],
         amendedCleanupAggregate
           ((aerase "v1"
             ([("v1", .connecting), ("v2", .disconnected)]
               : List (String × ConnState))).map Prod.snd),
         amendedCleanupAggregate
           ((aerase "v1"
             ([("v1", .connecting), ("v2", .disconnected)]
               : List (String × ConnState))).map Prod.snd) == .connected⟩ :=
  aggregate_amended [("v1", .connecting), ("v2", .connected)] "v1"
    (StreamerAgg.mk [("v1", .connecting), ("v2", .disconnected)] .connecting false)
    (by decide)

/-! ## Viewer-side negotiation (createAnswer, useWebRTC.ts lines 206 to 287) -/

/-- A peer connection as far as negotiation observes it. -/
structure PeerConn where
  connectionState : ConnState
  signalingState : SignalingState
  remoteDescription : Option String
  localDescription : Option String
  deriving DecidableEq

/-- The state of a freshly constructed RTCPeerConnection. -/
def freshPeerConn : PeerConn :=
  ⟨.new, .stable, none, none⟩

/-- Connection states treated as terminal by createAnswer (failed, closed,
disconnected). -/
def isTerminalForAnswer : ConnState → Bool
  | .failed => true
  | .closed => true
  | .disconnected => true
  | _ => false

/-- Viewer-side hook state touched by createAnswer. -/
structure ViewerHook where
  peerConnection : Option PeerConn
  processingOffers : List String
  remoteStream : Option String
  isConnected : Bool
  connectionState : ConnState
  error : Option String
  deriving DecidableEq

/-- Messages emitted towards the signaling socket. -/
inductive HookEmit
  | answer (target : String)
  | offer (target : String)
  | ice (target : String)
  deriving DecidableEq

/-- Outcomes of the awaited WebRTC calls inside createAnswer; a true flag means
the corresponding awaited call rejects with failMsg. -/
structure AnswerEnv where
  setRemoteFails : Bool
  createAnswerFails : Bool
  setLocalFails : Bool
  failMsg : String
  deriving DecidableEq

/-- createAnswer (viewer side).  Mirrors useWebRTC.ts lines 206 to 287: the
guard short-circuit, terminal-state replacement, lazy construction, the
stable-only acceptance check inside the try block, the answer emission, the
catch branch recording the error, and the finally branch removing the guard
entry. -/
def createAnswer (offer streamerId : String) (env : AnswerEnv) (s : ViewerHook) :
    ViewerHook × List HookEmit :=
  if s.processingOffers.contains streamerId then
    (s, [])
  else
    let pc0 : Option PeerConn :=
      match s.peerConnection with
      | some pc => if isTerminalForAnswer pc.connectionState then none else some pc
      | none => none
    let pc1 : PeerConn := pc0.getD freshPeerConn
    let guardSet := s.processingOffers ++ [streamerId]
    if pc1.signalingState ≠ .stable then
      ({ s with peerConnection := some pc1,
                processingOffers := guardSet.erase streamerId }, [])
    else if env.setRemoteFails then
      ({ s with peerConnection := some pc1,
                error := some env.failMsg,
                processingOffers := guardSet.erase streamerId }, [])
    else
      let pc2 : PeerConn :=
        { pc1 with remoteDescription := some offer, signalingState := .haveRemoteOffer }
      if env.createAnswerFails then
        ({ s with peerConnection := some pc2,
                  error := some env.failMsg,
                  processingOffers := guardSet.erase streamerId }, [])
      else if env.setLocalFails then
        ({ s with peerConnection := some pc2,
                  error := some env.failMsg,
                  processingOffers := guardSet.erase streamerId }, [])
      else
        let pc3 : PeerConn :=
          { pc2 with localDescription := some "answer", signalingState := .stable }
        ({ s with peerConnection := some pc3,
                  processingOffers := guardSet.erase streamerId },
         [.answer streamerId])

theorem erase_append_singleton (a : String) (l : List String) (h : a ∉ l) :
    (l ++ [a]).erase a = l := by
  rw [List.erase_append_right _ (by simpa using h)]
  simp

/-! ## Claim C2 -/

/-- Claim C2: a createAnswer call while the streamer id is already in the
offer-processing guard is a complete no-op (state unchanged, nothing emitted),
and every call leaves the guard exactly as it found it: the entry a processing
run adds is removed on every exit path, success, early return or failure. -/
theorem createAnswer_guard (offer streamerId : String) (env : AnswerEnv)
    (s : ViewerHook) :
    (streamerId ∈ s.processingOffers → createAnswer offer streamerId env s = (s, [])) ∧
    (createAnswer offer streamerId env s).1.processingOffers = s.processingOffers := by
  obtain ⟨a, b, c, d, e, f⟩ := s
  by_cases hmem : streamerId ∈ b
  · constructor
    · intro _
      simp [createAnswer, hmem]
    · simp [createAnswer, hmem]
  · have herase : (b ++ [streamerId]).erase streamerId = b :=
      erase_append_singleton streamerId b hmem
    refine ⟨fun h => absurd h hmem, ?_⟩
    simp only [createAnswer]
    rw [if_neg (by simpa using hmem)]
    repeat' split
    all_goals simp [herase]

/-- Witness for Claim C2 at a concrete state already holding the guard entry. -/
theorem createAnswer_guard_witness :
    ("s1" ∈ (ViewerHook.mk none ["s1"] none false .new none).processingOffers →
      createAnswer "o" "s1" (AnswerEnv.mk false false false "e")
          (ViewerHook.mk none ["s1"] none false .new none)
        = (ViewerHook.mk none ["s1"] none false .new none, [])) ∧
    (createAnswer "o" "s1" (AnswerEnv.mk false false false "e")
        (ViewerHook.mk none ["s1"] none false .new none)).1.processingOffers
      = (ViewerHook.mk none ["s1"] none false .new none).processingOffers :=
  createAnswer_guard "o" "s1" (AnswerEnv.mk false false false "e")
    (ViewerHook.mk none ["s1"] none false .new none)

/-! ## Claim C3 -/

/-- Claim C3: when the current session is non-terminal and its signaling state
is not stable, createAnswer returns without any effect at all: the offer is not
applied, no answer is emitted, and no error is raised or recorded. -/
theorem createAnswer_not_stable_noop (offer streamerId : String) (env : AnswerEnv)
    (s : ViewerHook) (pc : PeerConn)
    (hguard : streamerId ∉ s.processingOffers)
    (hpc : s.peerConnection = some pc)
    (hterm : isTerminalForAnswer pc.connectionState = false)
    (hsig : pc.signalingState ≠ .stable) :
    createAnswer offer streamerId env s = (s, []) := by
  obtain ⟨a, b, c, d, e, f⟩ := s
  subst hpc
  have herase : (b ++ [streamerId]).erase streamerId = b :=
    erase_append_singleton streamerId b hguard
  simp at hguard hterm
  simp [createAnswer, hguard, hterm, hsig, herase]

/-- Witness for Claim C3 at a concrete state with a have-local-offer session. -/
theorem createAnswer_not_stable_noop_witness :
    createAnswer "o" "s1" (AnswerEnv.mk false false false "e")
        (ViewerHook.mk (some ⟨.connecting, .haveLocalOffer, none, some "x"⟩)
          [] none false .connecting none)
      = (ViewerHook.mk (some ⟨.connecting, .haveLocalOffer, none, some "x"⟩)
          [] none false .connecting none, []) :=
  createAnswer_not_stable_noop "o" "s1" (AnswerEnv.mk false false false "e")
    (ViewerHook.mk (some ⟨.connecting, .haveLocalOffer, none, some "x"⟩)
      [] none false .connecting none)
    ⟨.connecting, .haveLocalOffer, none, some "x"⟩
    (by decide) rfl (by decide) (by decide)

/-! ## Reconnection Controller (viewer page, app/viewer/[roomId]/page.tsx) -/

/-- Viewer-side retry bookkeeping: retryCountRef and the pending retry timer
(held as the delay it was armed with). -/
structure RetryState where
  retryCount : Nat
  pendingDelay : Option Nat
  deriving DecidableEq

/-- Body of the auto-retry effect (page.tsx lines 225 to 252) run on a
connection-state change: on failed or disconnected the count is incremented;
above 5 a terminal status is reported (second component true) and no new timer
is armed; otherwise the previous timer is replaced by one armed with
2000 * count milliseconds. -/
def retryEffect (cs : ConnState) (r : RetryState) : RetryState × Bool :=
  if cs == .failed || cs == .disconnected then
    let c := r.retryCount + 1
    if c > 5 then
      (⟨c, r.pendingDelay⟩, true)
    else
      (⟨c, some (2000 * c)⟩, false)
  else
    (r, false)

/-- The reset performed by handleReconnect (page.tsx lines 94 to 114): clear the
pending timer and zero the count. -/
def handleReconnectReset (_ : RetryState) : RetryState :=
  ⟨0, none⟩

/-- The reset performed by the join-room success callback (page.tsx line 84). -/
def joinSuccessReset (r : RetryState) : RetryState :=
  ⟨0, r.pendingDelay⟩

/-! ## Claim C5 -/

/-- Claim C5: every entry into failed or disconnected increments the attempt
count; once the count exceeds 5 no reconnect is scheduled and a terminal status
is reported; otherwise the scheduled delay before attempt n is exactly
2000 * n milliseconds; and both a manual reconnect and a successful join reset
the count to zero. -/
theorem retry_bounded_linear_backoff (cs : ConnState) (r : RetryState)
    (h : cs = .failed ∨ cs = .disconnected) :
    (retryEffect cs r).1.retryCount = r.retryCount + 1 ∧
    (r.retryCount + 1 > 5 →
      (retryEffect cs r).1.pendingDelay = r.pendingDelay ∧ (retryEffect cs r).2 = true) ∧
    (r.retryCount + 1 ≤ 5 →
      (retryEffect cs r).1.pendingDelay = some (2000 * (r.retryCount + 1)) ∧
      (retryEffect cs r).2 = false) ∧
    (handleReconnectReset r).retryCount = 0 ∧
    (joinSuccessReset r).retryCount = 0 := by
  have hcs : (cs == ConnState.failed || cs == ConnState.disconnected) = true := by
    rcases h with rfl | rfl <;> decide
  by_cases hc : r.retryCount + 1 > 5
  · refine ⟨?_, ?_, ?_, rfl, rfl⟩
    · simp [retryEffect, hcs, hc]
    · intro _
      simp [retryEffect, hcs, hc]
    · intro hle
      omega
  · refine ⟨?_, ?_, ?_, rfl, rfl⟩
    · simp [retryEffect, hcs, hc]
    · intro hgt
      omega
    · intro _
      simp [retryEffect, hcs, hc]

/-- Witness for Claim C5 at the first failure from a fresh state. -/
theorem retry_bounded_linear_backoff_witness :
    (retryEffect .failed (RetryState.mk 0 none)).1.retryCount
      = (RetryState.mk 0 none).retryCount + 1 ∧
    ((RetryState.mk 0 none).retryCount + 1 > 5 →
      (retryEffect .failed (RetryState.mk 0 none)).1.pendingDelay
        = (RetryState.mk 0 none).pendingDelay ∧
      (retryEffect .failed (RetryState.mk 0 none)).2 = true) ∧
    ((RetryState.mk 0 none).retryCount + 1 ≤ 5 →
      (retryEffect .failed (RetryState.mk 0 none)).1.pendingDelay
        = some (2000 * ((RetryState.mk 0 none).retryCount + 1)) ∧
      (retryEffect .failed (RetryState.mk 0 none)).2 = false) ∧
    (handleReconnectReset (RetryState.mk 0 none)).retryCount = 0 ∧
    (joinSuccessReset (RetryState.mk 0 none)).retryCount = 0 :=
  retry_bounded_linear_backoff .failed (RetryState.mk 0 none) (Or.inl rfl)

/-! ## Streamer-side offer creation and stream control
(useWebRTC.ts lines 29 to 92 and 152 to 203, app/streamer/page.tsx) -/

/-- Streamer-side hook state touched by createOffer and the stream controls. -/
structure StreamerHook where
  localStream : Option (List String)
  peerConnections : List (String × PeerConn)
  error : Option String
  deriving DecidableEq

/-- Observable actions of the streamer side, in program order. -/
inductive StrAction
  | closeSession (viewerId : String)
  | newSession (viewerId : String)
  | emitOffer (target : String)
  | emitStreamPaused (roomId : String)
  | emitStreamResumed (roomId : String)
  | stopTrack (track : String)
  deriving DecidableEq

/-- createPeerConnectionForViewer (useWebRTC.ts lines 29 to 92): an existing
session for the viewer is closed and deleted first, then a fresh connection is
stored under the viewer id. -/
def createPeerConnectionForViewer (viewerId : String)
    (conns : List (String × PeerConn)) : List (String × PeerConn) × List StrAction :=
  match alookup viewerId conns with
  | some _ =>
    (aset viewerId freshPeerConn (aerase viewerId conns),
     [.closeSession viewerId, .newSession viewerId])
  | none =>
    (aset viewerId freshPeerConn conns, [.newSession viewerId])

/-- Outcome of the awaited SDP calls inside createOffer. -/
structure OfferEnv where
  sdpFails : Bool
  failMsg : String
  deriving DecidableEq

/-- createOffer (useWebRTC.ts lines 152 to 203): nothing happens without a
socket; without a ready local stream the error is recorded and nothing else
happens; otherwise a dedicated session replaces any previous one for the
viewer, and on SDP success one offer is emitted at the viewer. -/
def createOffer (hasSocket : Bool) (env : OfferEnv) (viewerId : String)
    (s : StreamerHook) : StreamerHook × List StrAction :=
  if hasSocket = false then
    (s, [])
  else
    match s.localStream with
    | none => ({ s with error := some "Local stream not ready" }, [])
    | some _ =>
      let pr := createPeerConnectionForViewer viewerId s.peerConnections
      if env.sdpFails then
        ({ s with peerConnections := pr.1, error := some env.failMsg }, pr.2)
      else
        ({ s with peerConnections := pr.1 }, pr.2 ++ [.emitOffer viewerId])

/-- Streamer page state (app/streamer/page.tsx): the room id, the viewersRef
set, the isStreaming flag and the hook state. -/
structure StreamerPage where
  roomId : Option String
  viewers : List String
  isStreaming : Bool
  hook : StreamerHook
  deriving DecidableEq

/-- stopLocalStream (useWebRTC.ts lines 393 to 401): stop every local track and
drop the stream. -/
def stopLocalStream (s : StreamerHook) : StreamerHook × List StrAction :=
  match s.localStream with
  | some tracks => ({ s with localStream := none }, tracks.map StrAction.stopTrack)
  | none => (s, [])

/-- stopStream (page.tsx lines 145 to 158): stop local media, mark not
streaming, and broadcast stream-paused when a room exists.  Peer sessions are
not touched. -/
def stopStream (p : StreamerPage) : StreamerPage × List StrAction :=
  let pr := stopLocalStream p.hook
  let pauseActs : List StrAction :=
    match p.roomId with
    | some rid => [.emitStreamPaused rid]
    | none => []
  ({ p with hook := pr.1, isStreaming := false }, pr.2 ++ pauseActs)

/-- Outcomes of the awaited steps inside restartStream. -/
structure RestartEnv where
  mediaFails : Bool
  newTracks : List String
  offerEnv : OfferEnv
  failMsg : String
  deriving DecidableEq

/-- The forEach loop over viewersRef at the end of restartStream
(page.tsx lines 178 to 180). -/
def offerLoop (env : OfferEnv) (viewers : List String) (s : StreamerHook) :
    StreamerHook × List StrAction :=
  match viewers with
  | [] => (s, [])
  | v :: vs =>
    let p1 := createOffer true env v s
    let p2 := offerLoop env vs p1.1
    (p2.1, p1.2 ++ p2.2)

/-- restartStream (page.tsx lines 161 to 188): without a room only an error is
recorded; otherwise stream-resumed is broadcast, local media is re-acquired,
and one offer is created per known viewer. -/
def restartStream (env : RestartEnv) (p : StreamerPage) :
    StreamerPage × List StrAction :=
  match p.roomId with
  | none =>
    ({ p with hook :=
        { p.hook with error := some "Room has expired, please restart streaming" } },
     [])
  | some rid =>
    if env.mediaFails then
      ({ p with hook := { p.hook with error := some env.failMsg } },
       [.emitStreamResumed rid])
    else
      let pr := offerLoop env.offerEnv p.viewers
        { p.hook with error := none, localStream := some env.newTracks }
      ({ p with hook := pr.1, isStreaming := true },
       .emitStreamResumed rid :: pr.2)

/-! ## Claim C8 -/

/-- Claim C8: a streamer-side createOffer call made while localStream is null
records the local-media-not-ready error, creates no peer session, and emits no
offer. -/
theorem createOffer_requires_local_media (env : OfferEnv) (viewerId : String)
    (s : StreamerHook) (h : s.localStream = none) :
    createOffer true env viewerId s
      = ({ s with error := some "Local stream not ready" }, []) ∧
    (createOffer true env viewerId s).1.peerConnections = s.peerConnections := by
  constructor
  · simp [createOffer, h]
  · simp [createOffer, h]

/-- Witness for Claim C8 at a concrete state without local media. -/
theorem createOffer_requires_local_media_witness :
    createOffer true (OfferEnv.mk false "e") "v1" (StreamerHook.mk none [] none)
      = ({ StreamerHook.mk none [] none with error := some "Local stream not ready" },
         []) ∧
    (createOffer true (OfferEnv.mk false "e") "v1"
        (StreamerHook.mk none [] none)).1.peerConnections
      = (StreamerHook.mk none [] none).peerConnections :=
  createOffer_requires_local_media (OfferEnv.mk false "e") "v1"
    (StreamerHook.mk none [] none) rfl

/-! ## Claim C6 -/

theorem createOffer_localStream_invariant (b : Bool) (env : OfferEnv) (v : String)
    (s : StreamerHook) :
    (createOffer b env v s).1.localStream = s.localStream := by
  cases b
  · simp [createOffer]
  · cases hls : s.localStream
    · simp [createOffer, hls]
    · by_cases hsdp : env.sdpFails
      · simp [createOffer, hls, hsdp]
      · simp [createOffer, hls, hsdp]

theorem createOffer_acts_success (env : OfferEnv) (v : String) (s : StreamerHook)
    (hls : s.localStream.isSome = true) (hsdp : env.sdpFails = false) :
    (createOffer true env v s).2
      = (createPeerConnectionForViewer v s.peerConnections).2
          ++ [StrAction.emitOffer v] := by
  obtain ⟨tracks, htr⟩ := Option.isSome_iff_exists.mp hls
  simp [createOffer, htr, hsdp]

theorem createOffer_acts_sub (b : Bool) (env : OfferEnv) (v : String)
    (s : StreamerHook) :
    ∀ a ∈ (createOffer b env v s).2,
      a = StrAction.closeSession v ∨ a = StrAction.newSession v
        ∨ a = StrAction.emitOffer v := by
  intro a ha
  cases b
  · simp [createOffer] at ha
  · cases hls : s.localStream
    · simp [createOffer, hls] at ha
    · by_cases hsdp : env.sdpFails <;>
        cases halk : alookup v s.peerConnections <;>
          simp [createOffer, hls, hsdp, createPeerConnectionForViewer, halk] at ha <;>
            tauto

theorem offerLoop_acts_sub (env : OfferEnv) (viewers : List String)
    (s : StreamerHook) :
    ∀ a ∈ (offerLoop env viewers s).2,
      ∃ v ∈ viewers,
        a = StrAction.closeSession v ∨ a = StrAction.newSession v
          ∨ a = StrAction.emitOffer v := by
  induction viewers generalizing s with
  | nil =>
    intro a ha
    simp [offerLoop] at ha
  | cons w vs ih =>
    intro a ha
    simp only [offerLoop, List.mem_append] at ha
    rcases ha with ha | ha
    · exact ⟨w, by simp, createOffer_acts_sub true env w s a ha⟩
    · obtain ⟨v, hv, hforms⟩ := ih _ a ha
      exact ⟨v, by simp [hv], hforms⟩

theorem offerLoop_count_offer (env : OfferEnv) (hsdp : env.sdpFails = false)
    (viewers : List String) (s : StreamerHook) (hls : s.localStream.isSome = true)
    (v : String) :
    (offerLoop env viewers s).2.count (StrAction.emitOffer v) = viewers.count v := by
  induction viewers generalizing s with
  | nil => simp [offerLoop]
  | cons w vs ih =>
    have hls2 : (createOffer true env w s).1.localStream.isSome = true := by
      rw [createOffer_localStream_invariant]
      exact hls
    have hhead : ((createOffer true env w s).2).count (StrAction.emitOffer v)
        = if v = w then 1 else 0 := by
      rw [createOffer_acts_success env w s hls hsdp]
      by_cases hvw : v = w
      · subst hvw
        cases halk : alookup v s.peerConnections
        · simp [createPeerConnectionForViewer, halk, List.count_append]
        · simp [createPeerConnectionForViewer, halk, List.count_append]
      · have hne : StrAction.emitOffer v ≠ StrAction.emitOffer w := by
          simp [hvw]
        cases halk : alookup w s.peerConnections
        · simp [createPeerConnectionForViewer, halk, List.count_append,
            List.count_cons, hvw, hne]
        · simp [createPeerConnectionForViewer, halk, List.count_append,
            List.count_cons, hvw, hne]
    simp only [offerLoop, List.count_append, hhead, ih _ hls2, List.count_cons]
    by_cases hvw : v = w
    · simp [hvw, Nat.add_comm]
    · have hwv : ¬w = v := fun h => hvw h.symm
      simp [hvw, hwv]

/-- Counterexample to Claim C6: with one known viewer v1 that already has a
session, restartStream closes and discards that session before the offer at v1
is emitted, because createOffer replaces any existing session for its viewer. -/
theorem resume_discards_session_counterexample :
    (alookup "v1"
      (StreamerPage.mk (some "r") ["v1"] false
        (StreamerHook.mk (some ["t0"]) [("v1", freshPeerConn)]
          none)).hook.peerConnections).isSome = true ∧
    (restartStream (RestartEnv.mk false ["t1"] (OfferEnv.mk false "e") "e")
        (StreamerPage.mk (some "r") ["v1"] false
          (StreamerHook.mk (some ["t0"]) [("v1", freshPeerConn)] none))).2
      = [.emitStreamResumed "r", .closeSession "v1", .newSession "v1",
         .emitOffer "v1"] ∧
    ((restartStream (RestartEnv.mk false ["t1"] (OfferEnv.mk false "e") "e")
        (StreamerPage.mk (some "r") ["v1"] false
          (StreamerHook.mk (some ["t0"]) [("v1", freshPeerConn)] none))).2.indexOf
      (StrAction.closeSession "v1")
      < (restartStream (RestartEnv.mk false ["t1"] (OfferEnv.mk false "e") "e")
          (StreamerPage.mk (some "r") ["v1"] false
            (StreamerHook.mk (some ["t0"]) [("v1", freshPeerConn)] none))).2.indexOf
        (StrAction.emitOffer "v1")) := by
  decide

/-- Claim C6 as amended: pause leaves the whole session table untouched, and
resume with a live room and successful media and SDP steps emits exactly one
offer per known viewer, addressed at that viewer, and closes no session of any
identity outside the viewer set; however each targeted viewer's own previous
session is closed and replaced by createOffer just before that viewer's offer
is emitted. -/
theorem pause_resume_offers (p : StreamerPage) (rid : String) (env : RestartEnv)
    (hrid : p.roomId = some rid) (hm : env.mediaFails = false)
    (hsdp : env.offerEnv.sdpFails = false) (hnd : p.viewers.Nodup) :
    (stopStream p).1.hook.peerConnections = p.hook.peerConnections ∧
    (∀ v ∈ p.viewers,
      (restartStream env p).2.count (StrAction.emitOffer v) = 1) ∧
    (∀ w, StrAction.emitOffer w ∈ (restartStream env p).2 → w ∈ p.viewers) ∧
    (∀ w, StrAction.closeSession w ∈ (restartStream env p).2 → w ∈ p.viewers) := by
  have htrace : (restartStream env p).2
      = StrAction.emitStreamResumed rid
          :: (offerLoop env.offerEnv p.viewers
                { p.hook with error := none, localStream := some env.newTracks }).2 := by
    simp [restartStream, hrid, hm]
  refine ⟨?_, ?_, ?_, ?_⟩
  · cases hls : p.hook.localStream
    · simp [stopStream, stopLocalStream, hls]
    · simp [stopStream, stopLocalStream, hls]
  · intro v hv
    rw [htrace]
    rw [List.count_cons]
    rw [offerLoop_count_offer env.offerEnv hsdp p.viewers _ (by simp) v]
    simp [List.count_eq_one_of_mem hnd hv]
  · intro w hw
    rw [htrace] at hw
    rcases List.mem_cons.mp hw with heq | hw2
    · cases heq
    · obtain ⟨v, hv, hforms⟩ := offerLoop_acts_sub env.offerEnv p.viewers _ _ hw2
      rcases hforms with heq | heq | heq
      · cases heq
      · cases heq
      · cases heq
        exact hv
  · intro w hw
    rw [htrace] at hw
    rcases List.mem_cons.mp hw with heq | hw2
    · cases heq
    · obtain ⟨v, hv, hforms⟩ := offerLoop_acts_sub env.offerEnv p.viewers _ _ hw2
      rcases hforms with heq | heq | heq
      · cases heq
        exact hv
      · cases heq
      · cases heq

/-- Witness for the amended Claim C6 at a concrete page state with two viewers. -/
theorem pause_resume_offers_witness :
    (stopStream (StreamerPage.mk (some "r") ["v1", "v2"] true
        (StreamerHook.mk (some ["t0"]) [("v1", freshPeerConn)]
          none))).1.hook.peerConnections
      = (StreamerPage.mk (some "r") ["v1", "v2"] true
          (StreamerHook.mk (some ["t0"]) [("v1", freshPeerConn)]
            none)).hook.peerConnections ∧
    (∀ v ∈ (["v1", "v2"] : List String),
      (restartStream (RestartEnv.mk false ["t1"] (OfferEnv.mk false "e") "e")
          (StreamerPage.mk (some "r") ["v1", "v2"] true
            (StreamerHook.mk (some ["t0"]) [("v1", freshPeerConn)]
              none))).2.count (StrAction.emitOffer v) = 1) ∧
    (∀ w, StrAction.emitOffer w
        ∈ (restartStream (RestartEnv.mk false ["t1"] (OfferEnv.mk false "e") "e")
            (StreamerPage.mk (some "r") ["v1", "v2"] true
              (StreamerHook.mk (some ["t0"]) [("v1", freshPeerConn)] none))).2
      → w ∈ (["v1", "v2"] : List String)) ∧
    (∀ w, StrAction.closeSession w
        ∈ (restartStream (RestartEnv.mk false ["t1"] (OfferEnv.mk false "e") "e")
            (StreamerPage.mk (some "r") ["v1", "v2"] true
              (StreamerHook.mk (some ["t0"]) [("v1", freshPeerConn)] none))).2
      → w ∈ (["v1", "v2"] : List String)) :=
  pause_resume_offers
    (StreamerPage.mk (some "r") ["v1", "v2"] true
      (StreamerHook.mk (some ["t0"]) [("v1", freshPeerConn)] none))
    "r" (RestartEnv.mk false ["t1"] (OfferEnv.mk false "e") "e")
    rfl rfl rfl (by decide)

/-! ## Full hook cleanup (useWebRTC.ts lines 336 to 367) -/

/-- The complete hook state visible to cleanup: refs and React state of
useWebRTC. -/
structure HookState where
  localStream : Option (List String)
  peerConnection : Option PeerConn
  peerConnections : List (String × PeerConn)
  processingOffers : List String
  remoteStream : Option String
  isConnected : Bool
  connectionState : ConnState
  error : Option String
  deriving DecidableEq

/-- Side effects performed by cleanup, in program order. -/
inductive CleanAction
  | stopTrack (track : String)
  | unregisterViewerCallbacks
  | closeViewerConn
  | unregisterConnCallbacks (viewerId : String)
  | closeConn (viewerId : String)
  deriving DecidableEq

/-- The forEach over all streamer-side connections (useWebRTC.ts lines
355 to 358): unregister the state-change callback and close each. -/
def closeAllConns : List (String × PeerConn) → List CleanAction
  | [] => []
  | (k, _) :: rest =>
    CleanAction.unregisterConnCallbacks k :: CleanAction.closeConn k
      :: closeAllConns rest

/-- cleanup: stop all local tracks and drop the stream, unregister and close
the viewer-side connection, close and clear all streamer-side connections,
clear the guard set, and reset all React state. -/
def cleanup (s : HookState) : HookState × List CleanAction :=
  let stopActs := (s.localStream.getD []).map CleanAction.stopTrack
  let viewerActs : List CleanAction :=
    match s.peerConnection with
    | some _ => [.unregisterViewerCallbacks, .closeViewerConn]
    | none => []
  (⟨none, none, [], [], none, false, .new, none⟩,
   stopActs ++ viewerActs ++ closeAllConns s.peerConnections)

/-- Track-stopping actions among the cleanup actions. -/
def isStopAction : CleanAction → Bool
  | .stopTrack _ => true
  | _ => false

theorem closeAllConns_no_stop (l : List (String × PeerConn)) :
    (closeAllConns l).filter isStopAction = [] := by
  induction l with
  | nil => simp [closeAllConns]
  | cons p rest ih =>
    obtain ⟨k, pc⟩ := p
    simp [closeAllConns, isStopAction, ih]

/-! ## Claim C10 -/

/-- Claim C10: cleanup establishes from any state the reset postcondition
(no local stream, no viewer connection, empty session table, empty guard set,
no remote stream, not connected, aggregate new, no error), it stops exactly the
tracks of the previous local stream, and it is idempotent: a second run returns
the same reset state and performs no actions at all. -/
theorem cleanup_postcondition_idempotent (s : HookState) :
    (cleanup s).1 = ⟨none, none, [], [], none, false, .new, none⟩ ∧
    ((cleanup s).2).filter isStopAction
      = (s.localStream.getD []).map CleanAction.stopTrack ∧
    cleanup ((cleanup s).1) = ((cleanup s).1, []) := by
  refine ⟨rfl, ?_, rfl⟩
  cases hpc : s.peerConnection <;>
    simp [cleanup, hpc, closeAllConns_no_stop, List.filter_append, isStopAction,
      List.filter_map] <;>
    exact congrArg (List.map CleanAction.stopTrack)
      (List.filter_eq_self.mpr (fun a _ => rfl))

end WebRTCStreaming
